import Mathlib

-- Verification development for the bart-proxy real-time aggregation core.
-- The definitions below are a shallow embedding of the JavaScript sources:
-- StaticDataService (static GTFS index), GtfsMonitor (feed poller),
-- TransitService (aggregation engine) and the GET /next projection of the
-- HTTP layer.  Instants are modelled as integers (milliseconds or seconds
-- since the epoch, as in the source); JavaScript Map objects become
-- insertion-ordered association lists; optional/duck-typed fields become
-- Option values, with JavaScript truthiness (0 and the empty string are
-- falsy) made explicit at each use site.

namespace BartProxy

-- Association-list model of a JavaScript Map keyed by strings:
-- set replaces an existing key in place and appends a fresh key.
abbrev SMap (α : Type) := List (String × α)

def mset {α : Type} (m : SMap α) (k : String) (v : α) : SMap α :=
  match m with
  | [] => [(k, v)]
  | (k2, v2) :: rest => if k2 = k then (k, v) :: rest else (k2, v2) :: mset rest k v

def mget {α : Type} (m : SMap α) (k : String) : Option α :=
  List.lookup k m

-- Row types for the four static GTFS tables (fields used by the core;
-- all CSV cells are strings in the source).
structure Stop where
  stop_id : String
  stop_name : String
  stop_code : String
  platform_code : String
  stop_lat : String
  stop_lon : String
deriving DecidableEq, Repr

structure Route where
  route_id : String
  route_short_name : String
  route_long_name : String
  route_color : String
  route_text_color : String
deriving DecidableEq, Repr

structure Trip where
  trip_id : String
  route_id : String
  trip_headsign : String
  direction_id : String
deriving DecidableEq, Repr

structure StopTime where
  trip_id : String
  stop_id : String
  arrival_time : String
  departure_time : String
deriving DecidableEq, Repr

-- The parsed contents of the four files under gtfs-static-data/.
-- none models a file that is absent or fails to read/parse, which in the
-- source makes readFileSync/parse throw.
structure GtfsFiles where
  stopsFile : Option (List Stop)
  routesFile : Option (List Route)
  tripsFile : Option (List Trip)
  stopTimesFile : Option (List StopTime)
deriving Repr

inductive LoadError where
  | stopsFile
  | routesFile
  | tripsFile
  | stopTimesFile
deriving DecidableEq, Repr

-- Mutable state of StaticDataService.
structure StaticState where
  stops : SMap Stop
  routes : SMap Route
  trips : SMap Trip
  stopTimes : SMap (List StopTime)
  initialized : Bool
deriving DecidableEq, Repr

-- stop_times rows are grouped by trip_id: a missing key is first bound to
-- an empty array, then the row is pushed.
def addStopTimeRow (m : SMap (List StopTime)) (st : StopTime) : SMap (List StopTime) :=
  match mget m st.trip_id with
  | none => mset m st.trip_id [st]
  | some l => mset m st.trip_id (l ++ [st])

-- StaticDataService.load: a no-op when already initialized; otherwise the
-- four files are read in order, each table being populated by Map.set as
-- in the forEach loops.  A failing read throws, so the mutations already
-- performed persist and initialized stays false; the thrown error is the
-- second component.
def load (s : StaticState) (f : GtfsFiles) : StaticState × Option LoadError :=
  if s.initialized then (s, none)
  else
    match f.stopsFile with
    | none => (s, some LoadError.stopsFile)
    | some stopRows =>
      let s1 := { s with stops := stopRows.foldl (fun m st => mset m st.stop_id st) s.stops }
      match f.routesFile with
      | none => (s1, some LoadError.routesFile)
      | some routeRows =>
        let s2 := { s1 with routes := routeRows.foldl (fun m r => mset m r.route_id r) s1.routes }
        match f.tripsFile with
        | none => (s2, some LoadError.tripsFile)
        | some tripRows =>
          let s3 := { s2 with trips := tripRows.foldl (fun m t => mset m t.trip_id t) s2.trips }
          match f.stopTimesFile with
          | none => (s3, some LoadError.stopTimesFile)
          | some stRows =>
            let s4 := { s3 with
              stopTimes := stRows.foldl addStopTimeRow s3.stopTimes
              initialized := true }
            (s4, none)

-- StaticDataService.reload: clears all four maps and the initialized flag,
-- then runs load on the current files.
def reload (s : StaticState) (f : GtfsFiles) : StaticState × Option LoadError :=
  load { s with
    stops := []
    routes := []
    trips := []
    stopTimes := []
    initialized := false } f

def getStop (s : StaticState) (stopId : String) : Option Stop :=
  mget s.stops stopId

def getRoute (s : StaticState) (routeId : String) : Option Route :=
  mget s.routes routeId

def getTrip (s : StaticState) (tripId : String) : Option Trip :=
  mget s.trips tripId

def getAllStops (s : StaticState) : List Stop :=
  s.stops.map (fun p => p.snd)

-- Concrete fixtures used by counterexamples and witnesses.
def montgomeryStop : Stop :=
  { stop_id := "M20-2", stop_name := "Montgomery St.", stop_code := "M20",
    platform_code := "2", stop_lat := "37.789", stop_lon := "-122.401" }

def c1PriorState : StaticState :=
  { stops := [("M20-2", montgomeryStop)], routes := [], trips := [],
    stopTimes := [], initialized := true }

def c1BadFiles : GtfsFiles :=
  { stopsFile := none, routesFile := none, tripsFile := none, stopTimesFile := none }

-- Decoded GTFS-realtime object model (gtfs-realtime-bindings FeedMessage),
-- restricted to the fields the core reads.  Every optionally-present
-- protobuf field is an Option.
structure StopTimeEvent where
  time : Option Int
  delay : Option Int
deriving DecidableEq, Repr

structure StopTimeUpdateMsg where
  stopId : Option String
  arrival : Option StopTimeEvent
  departure : Option StopTimeEvent
deriving DecidableEq, Repr

structure TripDescriptor where
  tripId : Option String
deriving DecidableEq, Repr

structure VehicleInfo where
  occupancyStatus : Option Nat
  label : Option String
deriving DecidableEq, Repr

structure TripUpdateMsg where
  trip : Option TripDescriptor
  stopTimeUpdate : Option (List StopTimeUpdateMsg)
  vehicle : Option VehicleInfo
deriving DecidableEq, Repr

structure TranslationMsg where
  text : String
deriving DecidableEq, Repr

structure TranslatedString where
  translation : Option (List TranslationMsg)
deriving DecidableEq, Repr

structure ActivePeriodMsg where
  start : Option Int
  finish : Option Int
deriving DecidableEq, Repr

structure EntitySelector where
  stopId : Option String
deriving DecidableEq, Repr

structure AlertMsg where
  informedEntity : Option (List EntitySelector)
  headerText : Option TranslatedString
  descriptionText : Option TranslatedString
  url : Option TranslatedString
  activePeriod : Option (List ActivePeriodMsg)
deriving DecidableEq, Repr

structure FeedEntity where
  tripUpdate : Option TripUpdateMsg
  alert : Option AlertMsg
  vehicle : Option VehicleInfo
deriving DecidableEq, Repr

structure FeedMessage where
  entity : List FeedEntity
deriving DecidableEq, Repr

-- A failed fetch attempt: non-2xx HTTP status, transport error (including
-- the 10s abort), or a protobuf decode error.  fetchFeed treats them all
-- identically.
inductive FetchError where
  | http (status : Nat)
  | transport (msg : String)
  | decodeFailure
  | timedOut
deriving DecidableEq, Repr

-- Observable steps of one refresh: each network attempt carries the
-- timeout (ms) armed for it via AbortController, and each backoff sleep
-- carries its duration (ms).
inductive FetchEvent where
  | attemptStep (idx : Nat) (timeoutMs : Nat)
  | waitStep (ms : Nat)
deriving DecidableEq, Repr

-- GtfsMonitor.fetchFeed, parameterized by an oracle giving the outcome of
-- the n-th fetch-and-decode attempt.  The source loops attempt = 1..3; a
-- success returns the feed at once, a failure on a non-final attempt
-- sleeps 1000 * 2^(attempt-1) ms and continues, and after the final
-- failure the last error is thrown.  The event list records the attempts
-- (with the 10000 ms timeout armed for each) and the sleeps, in order.
def fetchRetries : Nat := 3

def fetchFeedAux (oracle : Nat → Except FetchError FeedMessage)
    (attempt : Nat) (remaining : Nat) :
    Except FetchError FeedMessage × List FetchEvent :=
  match oracle attempt with
  | Except.ok feed => (Except.ok feed, [FetchEvent.attemptStep attempt 10000])
  | Except.error e =>
    match remaining with
    | 0 => (Except.error e, [FetchEvent.attemptStep attempt 10000])
    | r + 1 =>
      let rest := fetchFeedAux oracle (attempt + 1) r
      (rest.fst,
        FetchEvent.attemptStep attempt 10000 ::
          FetchEvent.waitStep (1000 * 2 ^ (attempt - 1)) :: rest.snd)

def fetchFeed (oracle : Nat → Except FetchError FeedMessage) :
    Except FetchError FeedMessage × List FetchEvent :=
  fetchFeedAux oracle 1 (fetchRetries - 1)

def countAttempts (events : List FetchEvent) : Nat :=
  events.countP (fun ev =>
    match ev with
    | FetchEvent.attemptStep _ _ => true
    | FetchEvent.waitStep _ => false)

-- Mutable state of GtfsMonitor.  Date values are epoch milliseconds.
structure MonitorStats where
  tripUpdates : Nat
  tripErrors : Nat
  alertUpdates : Nat
  alertErrors : Nat
deriving DecidableEq, Repr

structure Monitor where
  tripsFeed : Option FeedMessage
  alertsFeed : Option FeedMessage
  lastTripsUpdate : Option Int
  lastAlertsUpdate : Option Int
  tripsError : Option FetchError
  alertsError : Option FetchError
  isPolling : Bool
  stats : MonitorStats
deriving DecidableEq, Repr

structure FeedStatus where
  lastUpdate : Option Int
  hasData : Bool
  error : Option FetchError
deriving DecidableEq, Repr

structure MonitorStatus where
  trips : FeedStatus
  alerts : FeedStatus
  stats : MonitorStats
deriving DecidableEq, Repr

def getTripsFeed (m : Monitor) : Option FeedMessage :=
  m.tripsFeed

def getAlertsFeed (m : Monitor) : Option FeedMessage :=
  m.alertsFeed

def getMonitorStatus (m : Monitor) : MonitorStatus :=
  { trips := { lastUpdate := m.lastTripsUpdate, hasData := m.tripsFeed.isSome,
               error := m.tripsError }
    alerts := { lastUpdate := m.lastAlertsUpdate, hasData := m.alertsFeed.isSome,
                error := m.alertsError }
    stats := m.stats }

-- GtfsMonitor.updateTrips / updateAlerts: one refresh of the slot, with
-- nowMs the Date at which a success would be recorded.
def updateTrips (m : Monitor) (oracle : Nat → Except FetchError FeedMessage)
    (nowMs : Int) : Monitor :=
  match (fetchFeed oracle).fst with
  | Except.ok feed =>
    { m with
      tripsFeed := some feed
      lastTripsUpdate := some nowMs
      tripsError := none
      stats := { m.stats with tripUpdates := m.stats.tripUpdates + 1 } }
  | Except.error e =>
    { m with
      tripsError := some e
      stats := { m.stats with tripErrors := m.stats.tripErrors + 1 } }

def updateAlerts (m : Monitor) (oracle : Nat → Except FetchError FeedMessage)
    (nowMs : Int) : Monitor :=
  match (fetchFeed oracle).fst with
  | Except.ok feed =>
    { m with
      alertsFeed := some feed
      lastAlertsUpdate := some nowMs
      alertsError := none
      stats := { m.stats with alertUpdates := m.stats.alertUpdates + 1 } }
  | Except.error e =>
    { m with
      alertsError := some e
      stats := { m.stats with alertErrors := m.stats.alertErrors + 1 } }

-- Concrete exhaustion scenario: three consecutive HTTP 503 failures
-- against a monitor that already holds a snapshot.
def emptyFeedMessage : FeedMessage := { entity := [] }

def c2Oracle (_n : Nat) : Except FetchError FeedMessage :=
  Except.error (FetchError.http 503)

def c2Monitor : Monitor :=
  { tripsFeed := some emptyFeedMessage
    alertsFeed := some emptyFeedMessage
    lastTripsUpdate := some 1700000000000
    lastAlertsUpdate := some 1700000000000
    tripsError := none
    alertsError := none
    isPolling := true
    stats := { tripUpdates := 5, tripErrors := 1, alertUpdates := 3, alertErrors := 0 } }

-- JavaScript helpers made explicit.  jsOrI models a || b over optional
-- integers read from the feed, where both undefined and 0 are falsy.
def jsOrI (x y : Option Int) : Option Int :=
  match x with
  | some v => if v = 0 then y else some v
  | none => y

def evTime (ev : Option StopTimeEvent) : Option Int :=
  match ev with
  | some e => e.time
  | none => none

def evDelay (ev : Option StopTimeEvent) : Option Int :=
  match ev with
  | some e => e.delay
  | none => none

-- arrival?.delay || departure?.delay || 0
def rtDelay (a d : Option StopTimeEvent) : Int :=
  (jsOrI (evDelay a) (evDelay d)).getD 0

-- Math.round(d / q) for an integer d and positive integer q, i.e.
-- floor(d/q + 1/2), matching JavaScript rounding of halves toward +inf.
def jsRoundDiv (d q : Int) : Int :=
  Int.fdiv (2 * d + q) (2 * q)

def lowerStr (s : String) : String :=
  String.mk (s.toList.map Char.toLower)

def leadsWith : List Char → List Char → Bool
  | [], _ => true
  | _ :: _, [] => false
  | a :: as, b :: bs => (a == b) && leadsWith as bs

def occursIn (sub : List Char) : List Char → Bool
  | [] => sub.isEmpty
  | b :: bs => leadsWith sub (b :: bs) || occursIn sub bs

-- String.prototype.includes: sub occurs contiguously inside s.
def jsIncludes (s sub : String) : Bool :=
  occursIn sub.toList s.toList

-- forEach-with-push accumulation: the collected pushes of f over l, in order.
def pushAll {α β : Type} (f : α → List β) (l : List α) : List β :=
  l.foldl (fun acc x => acc ++ f x) []

-- Output shapes of TransitService.getStopInfo.  Warnings are modelled as
-- a tagged type carrying the data interpolated into the source strings;
-- instants appearing in output (ISO strings in the source) are kept as
-- the underlying integer instants.  stop_lat/stop_lon are kept raw (the
-- source applies parseFloat, which the claims never touch).
structure TripInfo where
  tripId : String
  routeId : String
  routeName : String
  routeLongName : String
  headsign : String
  direction : String
  scheduledArrival : Int
  estimatedArrival : Int
  minutesUntilArrival : Int
  delay : Int
  routeColor : Option String
  routeTextColor : Option String
  occupancyStatus : Option Nat
  vehicleLabel : Option String
deriving DecidableEq, Repr

inductive StopWarning where
  | tripsUnavailable (err : FetchError)
  | tripsInitializing
  | staleData (ageSeconds : Int)
  | alertsUnavailable
deriving DecidableEq, Repr

structure StopOut where
  id : String
  name : String
  code : String
  platform : String
  latRaw : String
  lonRaw : String
deriving DecidableEq, Repr

structure AlertOut where
  header : String
  description : String
  url : Option String
  activePeriod : List (Option Int × Option Int)
deriving DecidableEq, Repr

structure StopInfoOut where
  stop : Option StopOut
  upcomingTrips : List TripInfo
  alerts : List AlertOut
  warnings : List StopWarning
  lastUpdated : Int
deriving DecidableEq, Repr

inductive TransitError where
  | notFound (stopId : String)
deriving DecidableEq, Repr

-- Reads of GtfsMonitor state performed while serving one request, traced
-- in the order the source performs them.
inductive RtRead where
  | tripsSnapshot
  | monitorStatus
  | alertsSnapshot
deriving DecidableEq, Repr

-- const tripId = tripUpdate.trip?.tripId; if (!tripId) return;
def tripIdOf (tu : TripUpdateMsg) : Option String :=
  match tu.trip with
  | some td =>
    match td.tripId with
    | some tid => if tid = "" then none else some tid
    | none => none
  | none => none

-- const vehicle = tripUpdate.vehicle || entity.vehicle (objects are truthy)
def jsOrVehicle (x y : Option VehicleInfo) : Option VehicleInfo :=
  match x with
  | some v => some v
  | none => y

def vehicleLabelOf (v : Option VehicleInfo) : Option String :=
  match v with
  | some vi =>
    match vi.label with
    | some l => if l = "" then none else some l
    | none => none
  | none => none

def vehicleOccupancyOf (v : Option VehicleInfo) : Option Nat :=
  match v with
  | some vi => vi.occupancyStatus
  | none => none

-- route?.route_short_name || trip.route_id  (empty short name is falsy)
def routeNameOf (route : Option Route) (trip : Trip) : String :=
  match route with
  | some r => if r.route_short_name = "" then trip.route_id else r.route_short_name
  | none => trip.route_id

-- route?.route_long_name || ''
def routeLongNameOf (route : Option Route) : String :=
  match route with
  | some r => r.route_long_name
  | none => ""

-- route?.route_color ? `#color` : null
def routeColorOf (route : Option Route) : Option String :=
  match route with
  | some r => if r.route_color = "" then none else some ("#" ++ r.route_color)
  | none => none

def routeTextColorOf (route : Option Route) : Option String :=
  match route with
  | some r => if r.route_text_color = "" then none else some ("#" ++ r.route_text_color)
  | none => none

-- One stopTimeUpdate entry of a matched trip: emits at most one
-- prediction, exactly as the inner forEach body of _processTrips.
def stuPredictions (nowSec : Int) (stopId : String) (tripId : String)
    (trip : Trip) (route : Option Route) (vehicle : Option VehicleInfo)
    (tripDirection : String) (stu : StopTimeUpdateMsg) : List TripInfo :=
  if stu.stopId = some stopId then
    if stu.arrival.isSome || stu.departure.isSome then
      match jsOrI (evTime stu.arrival) (evTime stu.departure) with
      | none => []
      | some t =>
        if t ≠ 0 ∧ nowSec < t then
          let delay := rtDelay stu.arrival stu.departure
          [{ tripId := tripId
             routeId := trip.route_id
             routeName := routeNameOf route trip
             routeLongName := routeLongNameOf route
             headsign := trip.trip_headsign
             direction := tripDirection
             scheduledArrival := t - delay
             estimatedArrival := t
             minutesUntilArrival := jsRoundDiv (t - nowSec) 60
             delay := delay
             routeColor := routeColorOf route
             routeTextColor := routeTextColorOf route
             occupancyStatus := vehicleOccupancyOf vehicle
             vehicleLabel := vehicleLabelOf vehicle }]
        else []
    else []
  else []

-- One feed entity, as the outer forEach body of _processTrips.
def entityPredictions (s : StaticState) (nowSec : Int) (stopId : String)
    (e : FeedEntity) : List TripInfo :=
  match e.tripUpdate with
  | none => []
  | some tu =>
    match tripIdOf tu with
    | none => []
    | some tripId =>
      match getTrip s tripId with
      | none => []
      | some trip =>
        let tripDirection := if trip.direction_id = "0" then "outbound" else "inbound"
        let route := getRoute s trip.route_id
        let vehicle := jsOrVehicle tu.vehicle e.vehicle
        match tu.stopTimeUpdate with
        | none => []
        | some stus =>
          pushAll (stuPredictions nowSec stopId tripId trip route vehicle tripDirection) stus

def processTrips (s : StaticState) (nowSec : Int) (stopId : String)
    (feed : FeedMessage) : List TripInfo :=
  pushAll (entityPredictions s nowSec stopId) feed.entity

-- Array.prototype.sort with comparator (a, b) => estA - estB, realized as
-- a stable insertion sort on the estimated arrival instant.
def insertByArrival (t : TripInfo) : List TripInfo → List TripInfo
  | [] => [t]
  | h :: rest =>
    if t.estimatedArrival ≤ h.estimatedArrival then t :: h :: rest
    else h :: insertByArrival t rest

def sortByArrival (l : List TripInfo) : List TripInfo :=
  l.foldr insertByArrival []

-- The direction heuristic of _sortAndFilterTrips, applied to lowercased
-- route name / headsign with a lowercased direction argument.
def matchesDirection (dirLower : String) (t : TripInfo) : Bool :=
  let routeName := lowerStr t.routeName
  let headsign := lowerStr t.headsign
  if dirLower = "eastbound" then
    jsIncludes routeName ("n") || jsIncludes headsign ("antioch") ||
      jsIncludes headsign ("berryessa") || jsIncludes headsign ("dublin") ||
      jsIncludes headsign ("pittsburg")
  else if dirLower = "westbound" then
    jsIncludes routeName ("s") || jsIncludes headsign ("millbrae") ||
      jsIncludes headsign ("sfo") || jsIncludes headsign ("daly city") ||
      jsIncludes headsign ("richmond")
  else
    true

-- TransitService._sortAndFilterTrips: sort, then filter only when a
-- truthy direction was supplied (null/absent and "" pass everything).
def sortAndFilterTrips (l : List TripInfo) (direction : Option String) : List TripInfo :=
  let sorted := sortByArrival l
  match direction with
  | none => sorted
  | some dir =>
    if dir = "" then sorted
    else sorted.filter (matchesDirection (lowerStr dir))

-- alert.headerText?.translation?.[0]?.text || dflt
def translationTextOr (ts : Option TranslatedString) (dflt : String) : String :=
  match ts with
  | some t =>
    match t.translation with
    | some (tr :: _) => if tr.text = "" then dflt else tr.text
    | some [] => dflt
    | none => dflt
  | none => dflt

-- alert.url?.translation?.[0]?.text || null
def translationTextOpt (ts : Option TranslatedString) : Option String :=
  match ts with
  | some t =>
    match t.translation with
    | some (tr :: _) => if tr.text = "" then none else some tr.text
    | some [] => none
    | none => none
  | none => none

-- ap.start ? instant : null (a zero epoch value is falsy)
def periodInstant (v : Option Int) : Option Int :=
  match v with
  | some x => if x = 0 then none else some x
  | none => none

def alertActivePeriods (al : AlertMsg) : List (Option Int × Option Int) :=
  match al.activePeriod with
  | some aps => aps.map (fun ap => (periodInstant ap.start, periodInstant ap.finish))
  | none => []

def alertOut (al : AlertMsg) : AlertOut :=
  { header := translationTextOr al.headerText ("Alert")
    description := translationTextOr al.descriptionText ("")
    url := translationTextOpt al.url
    activePeriod := alertActivePeriods al }

def entityAlerts (stopId : String) (e : FeedEntity) : List AlertOut :=
  match e.alert with
  | none => []
  | some al =>
    let affects :=
      match al.informedEntity with
      | some ies => ies.any (fun ie => ie.stopId = some stopId)
      | none => false
    if affects then [alertOut al] else []

def processAlerts (stopId : String) (feed : FeedMessage) : List AlertOut :=
  pushAll (entityAlerts stopId) feed.entity

-- TransitService.getStopInfo, with the trace of GtfsMonitor reads it
-- performs.  nowMs is Date.now() at evaluation; the projection uses
-- Math.floor(nowMs / 1000) seconds exactly as the source.
def buildStopInfo (s : StaticState) (m : Monitor) (nowMs : Int)
    (stopId : String) (direction : Option String) (stop : Stop) :
    StopInfoOut × List RtRead :=
    let stopOut : StopOut :=
      { id := stop.stop_id, name := stop.stop_name, code := stop.stop_code,
        platform := stop.platform_code, latRaw := stop.stop_lat, lonRaw := stop.stop_lon }
    let tripsFeed := getTripsFeed m
    let tripsStatus := (getMonitorStatus m).trips
    let warnings1 : List StopWarning :=
      match tripsFeed with
      | none =>
        match tripsStatus.error with
        | some e => [StopWarning.tripsUnavailable e]
        | none => [StopWarning.tripsInitializing]
      | some _ =>
        let dataAge := nowMs -
          (match tripsStatus.lastUpdate with
           | some t => t
           | none => 0)
        if dataAge > 120000 then [StopWarning.staleData (jsRoundDiv dataAge 1000)] else []
    let lastUpdated :=
      match tripsFeed with
      | none => nowMs
      | some _ =>
        match tripsStatus.lastUpdate with
        | some t => t
        | none => nowMs
    let trips0 :=
      match tripsFeed with
      | none => []
      | some feed => processTrips s (Int.fdiv nowMs 1000) stopId feed
    let trips := sortAndFilterTrips trips0 direction
    let alertsFeed := getAlertsFeed m
    let alertsList :=
      match alertsFeed with
      | none => []
      | some feed => processAlerts stopId feed
    let warnings2 : List StopWarning :=
      match alertsFeed with
      | none =>
        match (getMonitorStatus m).alerts.error with
        | some _ => [StopWarning.alertsUnavailable]
        | none => []
      | some _ => []
    ({ stop := some stopOut
       upcomingTrips := trips
       alerts := alertsList
       warnings := warnings1 ++ warnings2
       lastUpdated := lastUpdated },
      [RtRead.tripsSnapshot, RtRead.monitorStatus, RtRead.alertsSnapshot] ++
        (match alertsFeed with
         | none => [RtRead.monitorStatus]
         | some _ => []))

def getStopInfoT (s : StaticState) (m : Monitor) (nowMs : Int)
    (stopId : String) (direction : Option String) :
    Except TransitError StopInfoOut × List RtRead :=
  match getStop s stopId with
  | none => (Except.error (TransitError.notFound stopId), [])
  | some stop =>
    let built := buildStopInfo s m nowMs stopId direction stop
    (Except.ok built.fst, built.snd)

def getStopInfo (s : StaticState) (m : Monitor) (nowMs : Int)
    (stopId : String) (direction : Option String) :
    Except TransitError StopInfoOut :=
  (getStopInfoT s m nowMs stopId direction).fst

def emptyStatic : StaticState :=
  { stops := [], routes := [], trips := [], stopTimes := [], initialized := true }

-- Shared concrete scenario: stop M20-2 (Montgomery St.), trip T1 on route
-- R1 headed Richmond / Antioch, an arrival 90 s in the future with a 30 s
-- delay, evaluated at epoch 1700000000000 ms.
def yellowRoute : Route :=
  { route_id := "R1", route_short_name := "Yellow-N",
    route_long_name := "Antioch - SFO", route_color := "FFFF33",
    route_text_color := "000000" }

def antiochTrip : Trip :=
  { trip_id := "T1", route_id := "R1", trip_headsign := "Richmond / Antioch",
    direction_id := "1" }

def scenarioStatic : StaticState :=
  { stops := [("M20-2", montgomeryStop)], routes := [("R1", yellowRoute)],
    trips := [("T1", antiochTrip)], stopTimes := [], initialized := true }

def c4STU : StopTimeUpdateMsg :=
  { stopId := some ("M20-2")
    arrival := some { time := some 1700000090, delay := some 30 }
    departure := none }

def c4TU : TripUpdateMsg :=
  { trip := some { tripId := some ("T1") }
    stopTimeUpdate := some [c4STU]
    vehicle := none }

def c4Entity : FeedEntity :=
  { tripUpdate := some c4TU, alert := none, vehicle := none }

def c4Feed : FeedMessage := { entity := [c4Entity] }

def scenarioMonitor : Monitor :=
  { tripsFeed := some c4Feed
    alertsFeed := some emptyFeedMessage
    lastTripsUpdate := some 1700000000000
    lastAlertsUpdate := some 1700000000000
    tripsError := none
    alertsError := none
    isPolling := true
    stats := { tripUpdates := 1, tripErrors := 0, alertUpdates := 1, alertErrors := 0 } }

def dfltInfo : StopInfoOut :=
  { stop := none, upcomingTrips := [], alerts := [], warnings := [], lastUpdated := 0 }

def okOr (r : Except TransitError StopInfoOut) (dflt : StopInfoOut) : StopInfoOut :=
  match r with
  | Except.ok i => i
  | Except.error _ => dflt

def c4Info : StopInfoOut :=
  okOr (getStopInfo scenarioStatic scenarioMonitor 1700000000000 ("M20-2") none) dfltInfo

def c4ExpectedPred : TripInfo :=
  { tripId := "T1", routeId := "R1", routeName := "Yellow-N",
    routeLongName := "Antioch - SFO", headsign := "Richmond / Antioch",
    direction := "inbound", scheduledArrival := 1700000060,
    estimatedArrival := 1700000090, minutesUntilArrival := 2, delay := 30,
    routeColor := some ("#FFFF33"), routeTextColor := some ("#000000"),
    occupancyStatus := none, vehicleLabel := none }

-- Stale variant of the scenario: the snapshot is 150 s old.
def c5Monitor : Monitor :=
  { scenarioMonitor with lastTripsUpdate := some 1699999850000 }

def c5Info : StopInfoOut :=
  okOr (getStopInfo scenarioStatic c5Monitor 1700000000000 ("M20-2") none) dfltInfo

-- Out-of-order variant: a later arrival listed before the earlier one.
def c7EntityLate : FeedEntity :=
  { tripUpdate := some
      { trip := some { tripId := some ("T1") }
        stopTimeUpdate := some
          [{ stopId := some ("M20-2")
             arrival := some { time := some 1700000300, delay := none }
             departure := none }]
        vehicle := none }
    alert := none
    vehicle := none }

def c7Feed : FeedMessage := { entity := [c7EntityLate, c4Entity] }

def c7Monitor : Monitor := { scenarioMonitor with tripsFeed := some c7Feed }

def c7Info : StopInfoOut :=
  okOr (getStopInfo scenarioStatic c7Monitor 1700000000000 ("M20-2") none) dfltInfo

-- Fixture predictions for the direction-filter claims.
def richmondAntiochTrip : TripInfo :=
  { tripId := "TA", routeId := "R1", routeName := "Red", routeLongName := "",
    headsign := "Richmond / Antioch", direction := "inbound",
    scheduledArrival := 1700000060, estimatedArrival := 1700000090,
    minutesUntilArrival := 2, delay := 30, routeColor := none,
    routeTextColor := none, occupancyStatus := none, vehicleLabel := none }

def sfoMillbraeTrip : TripInfo :=
  { tripId := "TB", routeId := "R2", routeName := "Red", routeLongName := "",
    headsign := "SFO/Millbrae", direction := "outbound",
    scheduledArrival := 1700000200, estimatedArrival := 1700000200,
    minutesUntilArrival := 3, delay := 0, routeColor := none,
    routeTextColor := none, occupancyStatus := none, vehicleLabel := none }

-- Same scenario as C4 but with an empty routes table.
def c10Static : StaticState :=
  { stops := [("M20-2", montgomeryStop)], routes := [],
    trips := [("T1", antiochTrip)], stopTimes := [], initialized := true }

def c10Info : StopInfoOut :=
  okOr (getStopInfo c10Static scenarioMonitor 1700000000000 ("M20-2") none) dfltInfo

-- GET /next handler (the simplified next-N-arrivals projection).
-- jsSplit is String.prototype.split for a non-empty separator: scan left
-- to right, cutting at each non-overlapping occurrence.  The fuel is the
-- input length, which the scan never exhausts.
def jsSplitGo (sep : List Char) : Nat → List Char → List Char → List (List Char)
  | _, [], acc => [acc.reverse]
  | 0, l, acc => [acc.reverse ++ l]
  | Nat.succ n, c :: rest, acc =>
    if leadsWith sep (c :: rest) then
      acc.reverse :: jsSplitGo sep n (List.drop (sep.length - 1) rest) []
    else
      jsSplitGo sep n rest (c :: acc)

def jsSplit (s sep : String) : List String :=
  (jsSplitGo sep.toList s.toList.length s.toList []).map String.mk

structure NextArrival where
  destination : String
  minutesUntilArrival : Int
  status : String
  vehicle : Option String
  occupancy : Option Nat
deriving DecidableEq, Repr

-- let destination = trip.headsign; if truthy, split by " / " and keep the
-- last part when there are several; otherwise "Unknown".
def destinationOf (headsign : String) : String :=
  if headsign = "" then "Unknown"
  else
    let parts := jsSplit headsign (" / ")
    if parts.length > 1 then parts.getLastD headsign else headsign

def nextArrivalOf (t : TripInfo) : NextArrival :=
  { destination := destinationOf t.headsign
    minutesUntilArrival := t.minutesUntilArrival
    status := if t.minutesUntilArrival ≤ 1 then "arriving" else "scheduled"
    vehicle :=
      match t.vehicleLabel with
      | some l => if l = "" then none else some l
      | none => none
    occupancy := t.occupancyStatus }

-- stopInfo.upcomingTrips.slice(0, limit).map(...)
def nextArrivals (trips : List TripInfo) (limit : Nat) : List NextArrival :=
  (trips.take limit).map nextArrivalOf

-- The destination label exactly as the claim words it: the final
-- "/"-delimited segment of the headsign.
def claimDestinationOf (headsign : String) : String :=
  (jsSplit headsign ("/")).getLastD headsign

-- The amended claim's wording of the label: split the headsign on the
-- three-character delimiter " / " (space, slash, space); when that yields
-- more than one part keep the final part, otherwise keep the headsign
-- itself; an empty headsign becomes "Unknown".
def specDestination (headsign : String) : String :=
  if headsign = "" then "Unknown"
  else
    match jsSplit headsign (" / ") with
    | [] => headsign
    | [_] => headsign
    | x :: y :: rest => (x :: y :: rest).getLastD headsign

/-- C1 counterexample: with stop M20-2 resolvable in the loaded index, a
reload over files whose stops table cannot be read reports a load error,
yet afterwards M20-2 is no longer resolvable — reload cleared the tables
before attempting the load, contradicting the claimed no-clobber. -/
theorem c1_reload_clobbers_on_failure :
    getStop c1PriorState ("M20-2") = some montgomeryStop ∧
    (reload c1PriorState c1BadFiles).snd = some LoadError.stopsFile ∧
    getStop (reload c1PriorState c1BadFiles).fst ("M20-2") = none := by
  refine ⟨rfl, rfl, rfl⟩

/-- C1 amended: reload unconditionally clears all four tables first, so its
result is a function of the current files alone, independent of the
previously loaded index; in particular when the stops table is unreadable
the failed reload leaves every stop lookup unresolvable. -/
theorem c1_reload_independent_of_prior :
    (∀ s1 s2 : StaticState, ∀ f : GtfsFiles, reload s1 f = reload s2 f) ∧
    (∀ s : StaticState, ∀ f : GtfsFiles, f.stopsFile = none →
      ∀ stopId : String, getStop (reload s f).fst stopId = none) := by
  constructor
  · intro s1 s2 f
    rfl
  · intro s f h stopId
    simp [reload, load, h, getStop, mget]

/-- C1 witness for the amended theorem, instantiated at the concrete prior
index and the unreadable files. -/
theorem c1_reload_independent_witness :
    reload c1PriorState c1BadFiles =
      reload { c1PriorState with initialized := false } c1BadFiles ∧
    getStop (reload c1PriorState c1BadFiles).fst ("ANY") = none :=
  ⟨c1_reload_independent_of_prior.1 c1PriorState
      { c1PriorState with initialized := false } c1BadFiles,
    c1_reload_independent_of_prior.2 c1PriorState c1BadFiles rfl ("ANY")⟩

/-- C8: one refresh is fully characterized by at most the first three
attempt outcomes: it stops at the first success, arms a 10000 ms timeout
on every attempt, sleeps exactly 1000 ms after a failed first attempt and
2000 ms after a failed second, never sleeps after the final attempt, and
terminates with the first successful feed or else the error of the last
(third) attempt; in every case at most 3 attempts are made. -/
theorem c8_fetchFeed_bounded_retries
    (oracle : Nat → Except FetchError FeedMessage) :
    (fetchFeed oracle =
      match oracle 1 with
      | Except.ok f => (Except.ok f, [FetchEvent.attemptStep 1 10000])
      | Except.error _ =>
        match oracle 2 with
        | Except.ok f =>
          (Except.ok f,
            [FetchEvent.attemptStep 1 10000, FetchEvent.waitStep 1000,
             FetchEvent.attemptStep 2 10000])
        | Except.error _ =>
          match oracle 3 with
          | Except.ok f =>
            (Except.ok f,
              [FetchEvent.attemptStep 1 10000, FetchEvent.waitStep 1000,
               FetchEvent.attemptStep 2 10000, FetchEvent.waitStep 2000,
               FetchEvent.attemptStep 3 10000])
          | Except.error e3 =>
            (Except.error e3,
              [FetchEvent.attemptStep 1 10000, FetchEvent.waitStep 1000,
               FetchEvent.attemptStep 2 10000, FetchEvent.waitStep 2000,
               FetchEvent.attemptStep 3 10000])) ∧
    countAttempts (fetchFeed oracle).snd ≤ 3 := by
  have hchar : fetchFeed oracle =
      match oracle 1 with
      | Except.ok f => (Except.ok f, [FetchEvent.attemptStep 1 10000])
      | Except.error _ =>
        match oracle 2 with
        | Except.ok f =>
          (Except.ok f,
            [FetchEvent.attemptStep 1 10000, FetchEvent.waitStep 1000,
             FetchEvent.attemptStep 2 10000])
        | Except.error _ =>
          match oracle 3 with
          | Except.ok f =>
            (Except.ok f,
              [FetchEvent.attemptStep 1 10000, FetchEvent.waitStep 1000,
               FetchEvent.attemptStep 2 10000, FetchEvent.waitStep 2000,
               FetchEvent.attemptStep 3 10000])
          | Except.error e3 =>
            (Except.error e3,
              [FetchEvent.attemptStep 1 10000, FetchEvent.waitStep 1000,
               FetchEvent.attemptStep 2 10000, FetchEvent.waitStep 2000,
               FetchEvent.attemptStep 3 10000]) := by
    cases h1 : oracle 1 with
    | ok f => simp [fetchFeed, fetchFeedAux, fetchRetries, h1]
    | error e1 =>
      cases h2 : oracle 2 with
      | ok f => simp [fetchFeed, fetchFeedAux, fetchRetries, h1, h2]
      | error e2 =>
        cases h3 : oracle 3 with
        | ok f => simp [fetchFeed, fetchFeedAux, fetchRetries, h1, h2, h3]
        | error e3 => simp [fetchFeed, fetchFeedAux, fetchRetries, h1, h2, h3]
  refine ⟨hchar, ?_⟩
  rw [hchar]
  cases h1 : oracle 1 with
  | ok f => norm_num [countAttempts, List.countP, List.countP.go]
  | error e1 =>
    cases h2 : oracle 2 with
    | ok f => norm_num [countAttempts, List.countP, List.countP.go]
    | error e2 =>
      cases h3 : oracle 3 with
      | ok f => norm_num [countAttempts, List.countP, List.countP.go]
      | error e3 => norm_num [countAttempts, List.countP, List.countP.go]

/-- C2: when all three attempts of a refresh fail, the slot's snapshot and
last-update timestamp are untouched (the previously held snapshot is still
what the getters serve), the terminal (third) error becomes the slot's
visible error status, and the slot's error counter increases by exactly
one for the whole refresh — for the trip-updates slot and the alerts slot
alike. -/
theorem c2_refresh_exhaustion_preserves_snapshot
    (m : Monitor) (oracle : Nat → Except FetchError FeedMessage)
    (nowMs : Int) (e1 e2 e3 : FetchError)
    (h1 : oracle 1 = Except.error e1) (h2 : oracle 2 = Except.error e2)
    (h3 : oracle 3 = Except.error e3) :
    (updateTrips m oracle nowMs).tripsFeed = m.tripsFeed ∧
    getTripsFeed (updateTrips m oracle nowMs) = getTripsFeed m ∧
    (updateTrips m oracle nowMs).lastTripsUpdate = m.lastTripsUpdate ∧
    (getMonitorStatus (updateTrips m oracle nowMs)).trips.error = some e3 ∧
    (updateTrips m oracle nowMs).stats.tripErrors = m.stats.tripErrors + 1 ∧
    (updateTrips m oracle nowMs).stats.tripUpdates = m.stats.tripUpdates ∧
    (updateAlerts m oracle nowMs).alertsFeed = m.alertsFeed ∧
    getAlertsFeed (updateAlerts m oracle nowMs) = getAlertsFeed m ∧
    (updateAlerts m oracle nowMs).lastAlertsUpdate = m.lastAlertsUpdate ∧
    (getMonitorStatus (updateAlerts m oracle nowMs)).alerts.error = some e3 ∧
    (updateAlerts m oracle nowMs).stats.alertErrors = m.stats.alertErrors + 1 ∧
    (updateAlerts m oracle nowMs).stats.alertUpdates = m.stats.alertUpdates := by
  have hfetch : (fetchFeed oracle).fst = Except.error e3 := by
    simp [fetchFeed, fetchFeedAux, fetchRetries, h1, h2, h3]
  refine ⟨?_, ?_, ?_, ?_, ?_, ?_, ?_, ?_, ?_, ?_, ?_, ?_⟩ <;>
    simp [updateTrips, updateAlerts, getTripsFeed, getAlertsFeed,
      getMonitorStatus, hfetch]

/-- C2 witness: the 3×HTTP-503 scenario applied to a monitor that already
holds a snapshot. -/
theorem c2_refresh_exhaustion_witness :
    (updateTrips c2Monitor c2Oracle 1700000060000).tripsFeed = some emptyFeedMessage ∧
    (getMonitorStatus (updateTrips c2Monitor c2Oracle 1700000060000)).trips.error =
      some (FetchError.http 503) ∧
    (updateTrips c2Monitor c2Oracle 1700000060000).stats.tripErrors = 2 :=
  ⟨(c2_refresh_exhaustion_preserves_snapshot c2Monitor c2Oracle 1700000060000
      (FetchError.http 503) (FetchError.http 503) (FetchError.http 503)
      rfl rfl rfl).1,
    (c2_refresh_exhaustion_preserves_snapshot c2Monitor c2Oracle 1700000060000
      (FetchError.http 503) (FetchError.http 503) (FetchError.http 503)
      rfl rfl rfl).2.2.2.1,
    (c2_refresh_exhaustion_preserves_snapshot c2Monitor c2Oracle 1700000060000
      (FetchError.http 503) (FetchError.http 503) (FetchError.http 503)
      rfl rfl rfl).2.2.2.2.1⟩

theorem mem_foldl_append {α β : Type} (f : α → List β) (l : List α)
    (init : List β) (b : β) :
    (b ∈ l.foldl (fun acc x => acc ++ f x) init) ↔
      b ∈ init ∨ ∃ a ∈ l, b ∈ f a := by
  induction l generalizing init with
  | nil => simp
  | cons hd tl ih =>
    simp only [List.foldl_cons, ih, List.mem_append, List.mem_cons]
    constructor
    · rintro (⟨h | h⟩ | ⟨a, ha, hb⟩)
      · exact Or.inl h
      · exact Or.inr ⟨hd, Or.inl rfl, h⟩
      · exact Or.inr ⟨a, Or.inr ha, hb⟩
    · rintro (h | ⟨a, (rfl | ha), hb⟩)
      · exact Or.inl (Or.inl h)
      · exact Or.inl (Or.inr hb)
      · exact Or.inr ⟨a, ha, hb⟩

theorem mem_pushAll {α β : Type} (f : α → List β) (l : List α) (b : β) :
    (b ∈ pushAll f l) ↔ ∃ a ∈ l, b ∈ f a := by
  simpa using mem_foldl_append f l [] b

/-- C3: for a stop identifier with no entry in the Static Index,
getStopInfo fails with NotFound and its trace of monitor reads is empty:
neither the trip-updates snapshot nor the alerts snapshot (nor the status)
is read before the failure. -/
theorem c3_unknown_stop_notfound_no_rt_reads
    (s : StaticState) (m : Monitor) (nowMs : Int) (stopId : String)
    (direction : Option String) (h : getStop s stopId = none) :
    getStopInfoT s m nowMs stopId direction =
      (Except.error (TransitError.notFound stopId), ([] : List RtRead)) := by
  simp [getStopInfoT, h]

/-- C3 witness: the empty index at stop X, with a monitor that does hold
snapshots. -/
theorem c3_unknown_stop_witness :
    getStop emptyStatic ("X-9") = none ∧
    getStopInfoT emptyStatic c2Monitor 1700000000000 ("X-9") none =
      (Except.error (TransitError.notFound ("X-9")), ([] : List RtRead)) :=
  ⟨rfl, c3_unknown_stop_notfound_no_rt_reads emptyStatic c2Monitor
    1700000000000 ("X-9") none rfl⟩

-- Membership lemmas for the sorting and filtering pipeline.
theorem mem_insertByArrival (t : TripInfo) (l : List TripInfo) (p : TripInfo) :
    p ∈ insertByArrival t l ↔ p = t ∨ p ∈ l := by
  induction l with
  | nil => simp [insertByArrival]
  | cons h tl ih =>
    simp only [insertByArrival]
    split
    · simp [List.mem_cons]
    · simp only [List.mem_cons, ih]
      tauto

theorem mem_sortByArrival (l : List TripInfo) (p : TripInfo) :
    p ∈ sortByArrival l ↔ p ∈ l := by
  induction l with
  | nil => simp [sortByArrival]
  | cons h tl ih =>
    simp only [sortByArrival, List.foldr_cons] at ih ⊢
    rw [mem_insertByArrival]
    simp [ih]

theorem mem_sortAndFilterTrips (l : List TripInfo) (direction : Option String)
    (p : TripInfo) (h : p ∈ sortAndFilterTrips l direction) : p ∈ l := by
  unfold sortAndFilterTrips at h
  cases direction with
  | none => exact (mem_sortByArrival l p).mp h
  | some dir =>
    simp only at h
    split at h
    · exact (mem_sortByArrival l p).mp h
    · exact (mem_sortByArrival l p).mp (List.mem_filter.mp h).1

theorem pairwise_insertByArrival (t : TripInfo) (l : List TripInfo)
    (h : l.Pairwise (fun a b => a.estimatedArrival ≤ b.estimatedArrival)) :
    (insertByArrival t l).Pairwise (fun a b => a.estimatedArrival ≤ b.estimatedArrival) := by
  induction l with
  | nil => simp [insertByArrival]
  | cons hd tl ih =>
    rcases List.pairwise_cons.mp h with ⟨hhd, htl⟩
    simp only [insertByArrival]
    split
    · rename_i hle
      refine List.pairwise_cons.mpr ⟨?_, h⟩
      intro b hb
      rcases List.mem_cons.mp hb with rfl | hbtl
      · exact hle
      · exact le_trans hle (hhd b hbtl)
    · rename_i hgt
      refine List.pairwise_cons.mpr ⟨?_, ih htl⟩
      intro b hb
      rcases (mem_insertByArrival t tl b).mp hb with rfl | hbtl
      · exact le_of_not_le hgt
      · exact hhd b hbtl

theorem pairwise_sortByArrival (l : List TripInfo) :
    (sortByArrival l).Pairwise (fun a b => a.estimatedArrival ≤ b.estimatedArrival) := by
  induction l with
  | nil => simp [sortByArrival]
  | cons h tl ih =>
    simp only [sortByArrival, List.foldr_cons] at ih ⊢
    exact pairwise_insertByArrival h _ ih

theorem pairwise_sortAndFilterTrips (l : List TripInfo) (direction : Option String) :
    (sortAndFilterTrips l direction).Pairwise
      (fun a b => a.estimatedArrival ≤ b.estimatedArrival) := by
  unfold sortAndFilterTrips
  cases direction with
  | none => exact pairwise_sortByArrival l
  | some dir =>
    simp only
    split
    · exact pairwise_sortByArrival l
    · exact (pairwise_sortByArrival l).sublist (List.filter_sublist _)

-- Every prediction a stopTimeUpdate entry emits satisfies the arithmetic
-- relations of the claim set.
theorem stuPredictions_props {nowSec : Int} {stopId tripId : String} {trip : Trip}
    {route : Option Route} {vehicle : Option VehicleInfo} {tripDirection : String}
    {stu : StopTimeUpdateMsg} {p : TripInfo}
    (h : p ∈ stuPredictions nowSec stopId tripId trip route vehicle tripDirection stu) :
    p.scheduledArrival = p.estimatedArrival - p.delay ∧
    nowSec < p.estimatedArrival ∧
    p.minutesUntilArrival = jsRoundDiv (p.estimatedArrival - nowSec) 60 := by
  unfold stuPredictions at h
  split at h
  · split at h
    · split at h
      · exact absurd h (List.not_mem_nil p)
      · split at h
        · rename_i t hcond
          rcases List.mem_singleton.mp h with rfl
          exact ⟨rfl, hcond.2, rfl⟩
        · exact absurd h (List.not_mem_nil p)
    · exact absurd h (List.not_mem_nil p)
  · exact absurd h (List.not_mem_nil p)

theorem entityPredictions_props {s : StaticState} {nowSec : Int} {stopId : String}
    {e : FeedEntity} {p : TripInfo}
    (h : p ∈ entityPredictions s nowSec stopId e) :
    p.scheduledArrival = p.estimatedArrival - p.delay ∧
    nowSec < p.estimatedArrival ∧
    p.minutesUntilArrival = jsRoundDiv (p.estimatedArrival - nowSec) 60 := by
  unfold entityPredictions at h
  split at h
  · exact absurd h (List.not_mem_nil p)
  · split at h
    · exact absurd h (List.not_mem_nil p)
    · split at h
      · exact absurd h (List.not_mem_nil p)
      · simp only at h
        split at h
        · exact absurd h (List.not_mem_nil p)
        · rcases (mem_pushAll _ _ _).mp h with ⟨stu, _, hp⟩
          exact stuPredictions_props hp

theorem processTrips_props {s : StaticState} {nowSec : Int} {stopId : String}
    {feed : FeedMessage} {p : TripInfo}
    (h : p ∈ processTrips s nowSec stopId feed) :
    p.scheduledArrival = p.estimatedArrival - p.delay ∧
    nowSec < p.estimatedArrival ∧
    p.minutesUntilArrival = jsRoundDiv (p.estimatedArrival - nowSec) 60 := by
  rcases (mem_pushAll _ _ _).mp h with ⟨e, _, hp⟩
  exact entityPredictions_props hp

-- Shape lemmas for the found-stop branch of getStopInfo.
theorem getStopInfo_found {s : StaticState} {m : Monitor} {nowMs : Int}
    {stopId : String} {direction : Option String} {stop : Stop}
    (hstop : getStop s stopId = some stop) :
    getStopInfo s m nowMs stopId direction =
      Except.ok (buildStopInfo s m nowMs stopId direction stop).fst := by
  unfold getStopInfo getStopInfoT
  rw [hstop]

theorem buildStopInfo_upcomingTrips (s : StaticState) (m : Monitor) (nowMs : Int)
    (stopId : String) (direction : Option String) (stop : Stop) :
    (buildStopInfo s m nowMs stopId direction stop).fst.upcomingTrips =
      sortAndFilterTrips
        (match m.tripsFeed with
         | none => []
         | some feed => processTrips s (Int.fdiv nowMs 1000) stopId feed)
        direction := by
  rfl

theorem buildStopInfo_lastUpdated {m : Monitor} {feed : FeedMessage} {lu : Int}
    (s : StaticState) (nowMs : Int) (stopId : String)
    (direction : Option String) (stop : Stop)
    (hfeed : m.tripsFeed = some feed) (hlu : m.lastTripsUpdate = some lu) :
    (buildStopInfo s m nowMs stopId direction stop).fst.lastUpdated = lu := by
  simp [buildStopInfo, getTripsFeed, getMonitorStatus, hfeed, hlu]

theorem buildStopInfo_stale_warning {m : Monitor} {feed : FeedMessage} {lu : Int}
    (s : StaticState) (nowMs : Int) (stopId : String)
    (direction : Option String) (stop : Stop)
    (hfeed : m.tripsFeed = some feed) (hlu : m.lastTripsUpdate = some lu)
    (hage : 120000 < nowMs - lu) :
    StopWarning.staleData (jsRoundDiv (nowMs - lu) 1000) ∈
      (buildStopInfo s m nowMs stopId direction stop).fst.warnings := by
  simp [buildStopInfo, getTripsFeed, getMonitorStatus, hfeed, hlu, hage]

/-- C7: whatever the order of the entities in the trip-updates snapshot,
the upcomingTrips list of a successful getStopInfo response is sorted
non-decreasing by estimated arrival instant. -/
theorem c7_upcoming_trips_sorted
    (s : StaticState) (m : Monitor) (nowMs : Int) (stopId : String)
    (direction : Option String) (info : StopInfoOut)
    (hok : getStopInfo s m nowMs stopId direction = Except.ok info) :
    info.upcomingTrips.Pairwise
      (fun a b => a.estimatedArrival ≤ b.estimatedArrival) := by
  unfold getStopInfo getStopInfoT at hok
  rcases hfind : getStop s stopId with _ | stop
  · rw [hfind] at hok
    simp at hok
  · rw [hfind] at hok
    simp only at hok
    have : (buildStopInfo s m nowMs stopId direction stop).fst = info :=
      Except.ok.inj hok
    rw [← this, buildStopInfo_upcomingTrips]
    exact pairwise_sortAndFilterTrips _ _

/-- C4: every ArrivalPrediction emitted by getStopInfo has
scheduledArrival = estimatedArrival − delay, an estimated arrival strictly
after the evaluation instant, and minutes-until-arrival equal to the
half-up rounding of (estimated arrival − now) in minutes; the delay
defaults to 0 when neither the arrival nor the departure event carries
one. -/
theorem c4_prediction_arithmetic :
    (∀ (s : StaticState) (m : Monitor) (nowMs : Int) (stopId : String)
        (direction : Option String) (info : StopInfoOut),
      getStopInfo s m nowMs stopId direction = Except.ok info →
      ∀ p ∈ info.upcomingTrips,
        p.scheduledArrival = p.estimatedArrival - p.delay ∧
        Int.fdiv nowMs 1000 < p.estimatedArrival ∧
        p.minutesUntilArrival =
          jsRoundDiv (p.estimatedArrival - Int.fdiv nowMs 1000) 60) ∧
    (∀ a d : Option StopTimeEvent, evDelay a = none → evDelay d = none →
      rtDelay a d = 0) := by
  constructor
  · intro s m nowMs stopId direction info hok p hp
    unfold getStopInfo getStopInfoT at hok
    rcases hfind : getStop s stopId with _ | stop
    · rw [hfind] at hok
      simp at hok
    · rw [hfind] at hok
      simp only at hok
      have hinfo : (buildStopInfo s m nowMs stopId direction stop).fst = info :=
        Except.ok.inj hok
      rw [← hinfo, buildStopInfo_upcomingTrips] at hp
      have hp2 := mem_sortAndFilterTrips _ _ _ hp
      rcases hfeed : m.tripsFeed with _ | feed
      · rw [hfeed] at hp2
        exact absurd hp2 (List.not_mem_nil p)
      · rw [hfeed] at hp2
        exact processTrips_props hp2
  · intro a d ha hd
    simp [rtDelay, jsOrI, ha, hd]

/-- C5: with a trip-updates snapshot and its timestamp present, the data
age is now − timestamp; past 120 s a staleness warning carrying the
rounded age in seconds is appended, and in the non-stale case the
response's lastUpdated is the snapshot timestamp. -/
theorem c5_staleness_warning
    (s : StaticState) (m : Monitor) (nowMs : Int) (stopId : String)
    (direction : Option String) (stop : Stop) (feed : FeedMessage) (lu : Int)
    (info : StopInfoOut)
    (hstop : getStop s stopId = some stop)
    (hfeed : m.tripsFeed = some feed) (hlu : m.lastTripsUpdate = some lu)
    (hok : getStopInfo s m nowMs stopId direction = Except.ok info) :
    (120000 < nowMs - lu →
      StopWarning.staleData (jsRoundDiv (nowMs - lu) 1000) ∈ info.warnings) ∧
    (¬ 120000 < nowMs - lu → info.lastUpdated = lu) := by
  rw [getStopInfo_found hstop] at hok
  have hinfo : (buildStopInfo s m nowMs stopId direction stop).fst = info :=
    Except.ok.inj hok
  constructor
  · intro hage
    rw [← hinfo]
    exact buildStopInfo_stale_warning s nowMs stopId direction stop hfeed hlu hage
  · intro _
    rw [← hinfo]
    exact buildStopInfo_lastUpdated s nowMs stopId direction stop hfeed hlu

/-- C4 witness: the 90-seconds-ahead, 30-second-delay scenario yields
exactly one prediction, with delay 30, minutes-until-arrival 2 (the
rounding of 1.5), and scheduled arrival 30 s before the estimated one;
the general theorem instantiates on it. -/
theorem c4_prediction_witness :
    getStopInfo scenarioStatic scenarioMonitor 1700000000000 ("M20-2") none =
      Except.ok c4Info ∧
    c4Info.upcomingTrips = [c4ExpectedPred] ∧
    c4ExpectedPred.delay = 30 ∧
    c4ExpectedPred.minutesUntilArrival = 2 ∧
    (c4ExpectedPred.scheduledArrival = c4ExpectedPred.estimatedArrival - c4ExpectedPred.delay ∧
      Int.fdiv 1700000000000 1000 < c4ExpectedPred.estimatedArrival ∧
      c4ExpectedPred.minutesUntilArrival =
        jsRoundDiv (c4ExpectedPred.estimatedArrival - Int.fdiv 1700000000000 1000) 60) := by
  refine ⟨rfl, rfl, rfl, rfl, ?_⟩
  exact c4_prediction_arithmetic.1 scenarioStatic scenarioMonitor 1700000000000
    ("M20-2") none c4Info rfl c4ExpectedPred (by decide)

/-- C5 witness: a snapshot 150 s old at evaluation time produces the
staleness warning carrying 150 rounded seconds. -/
theorem c5_staleness_witness :
    StopWarning.staleData (jsRoundDiv (1700000000000 - 1699999850000) 1000) ∈
      c5Info.warnings :=
  (c5_staleness_warning scenarioStatic c5Monitor 1700000000000 ("M20-2") none
    montgomeryStop c4Feed 1699999850000 c5Info rfl rfl rfl rfl).1 (by norm_num)

/-- C7 witness: with the feed listing the 300 s arrival before the 90 s
one, the response's upcomingTrips are still sorted by estimated arrival. -/
theorem c7_sorted_witness :
    getStopInfo scenarioStatic c7Monitor 1700000000000 ("M20-2") none =
      Except.ok c7Info ∧
    c7Info.upcomingTrips.Pairwise
      (fun a b => a.estimatedArrival ≤ b.estimatedArrival) :=
  ⟨rfl, c7_upcoming_trips_sorted scenarioStatic c7Monitor 1700000000000
    ("M20-2") none c7Info rfl⟩

/-- C6: after sorting, a prediction survives the case-insensitive
direction filter for eastbound exactly when its route name contains "n" or
its headsign contains antioch/berryessa/dublin/pittsburg, for westbound
exactly when its route name contains "s" or its headsign contains
millbrae/sfo/daly city/richmond, while any other direction value — and an
absent one — passes every prediction through; concretely, eastbound
retains the Richmond / Antioch headsign and rejects SFO/Millbrae. -/
theorem c6_direction_filter :
    (∀ (l : List TripInfo) (d : String) (t : TripInfo),
      lowerStr d = "eastbound" →
      (t ∈ sortAndFilterTrips l (some d) ↔
        t ∈ sortByArrival l ∧
          (jsIncludes (lowerStr t.routeName) ("n") = true ∨
           jsIncludes (lowerStr t.headsign) ("antioch") = true ∨
           jsIncludes (lowerStr t.headsign) ("berryessa") = true ∨
           jsIncludes (lowerStr t.headsign) ("dublin") = true ∨
           jsIncludes (lowerStr t.headsign) ("pittsburg") = true))) ∧
    (∀ (l : List TripInfo) (d : String) (t : TripInfo),
      lowerStr d = "westbound" →
      (t ∈ sortAndFilterTrips l (some d) ↔
        t ∈ sortByArrival l ∧
          (jsIncludes (lowerStr t.routeName) ("s") = true ∨
           jsIncludes (lowerStr t.headsign) ("millbrae") = true ∨
           jsIncludes (lowerStr t.headsign) ("sfo") = true ∨
           jsIncludes (lowerStr t.headsign) ("daly city") = true ∨
           jsIncludes (lowerStr t.headsign) ("richmond") = true))) ∧
    (∀ (l : List TripInfo) (d : String),
      lowerStr d ≠ "eastbound" → lowerStr d ≠ "westbound" →
      sortAndFilterTrips l (some d) = sortByArrival l) ∧
    (∀ l : List TripInfo, sortAndFilterTrips l none = sortByArrival l) ∧
    matchesDirection ("eastbound") richmondAntiochTrip = true ∧
    matchesDirection ("eastbound") sfoMillbraeTrip = false := by
  have hempty : lowerStr "" = "" := by decide
  refine ⟨?_, ?_, ?_, ?_, by decide, by decide⟩
  · intro l d t hdl
    have hne : d ≠ "" := by
      intro hd
      rw [hd, hempty] at hdl
      exact absurd hdl (by decide)
    simp only [sortAndFilterTrips, if_neg hne, List.mem_filter]
    rw [hdl]
    simp [matchesDirection, Bool.or_eq_true]
    intro _
    tauto
  · intro l d t hdl
    have hne : d ≠ "" := by
      intro hd
      rw [hd, hempty] at hdl
      exact absurd hdl (by decide)
    simp only [sortAndFilterTrips, if_neg hne, List.mem_filter]
    rw [hdl]
    simp [matchesDirection, Bool.or_eq_true]
    intro _
    tauto
  · intro l d hde hdw
    by_cases hne : d = ""
    · simp [sortAndFilterTrips, hne]
    · simp only [sortAndFilterTrips, if_neg hne]
      refine List.filter_eq_self.mpr ?_
      intro t _
      simp [matchesDirection, hde, hdw]
  · intro l
    rfl

/-- C6 witness: the eastbound filter, given with a capital E, keeps the
Richmond / Antioch prediction and drops the SFO/Millbrae one. -/
theorem c6_direction_filter_witness :
    richmondAntiochTrip ∈
      sortAndFilterTrips [richmondAntiochTrip, sfoMillbraeTrip] (some ("Eastbound")) ∧
    sfoMillbraeTrip ∉
      sortAndFilterTrips [richmondAntiochTrip, sfoMillbraeTrip] (some ("Eastbound")) :=
  ⟨(c6_direction_filter.1 [richmondAntiochTrip, sfoMillbraeTrip] ("Eastbound")
      richmondAntiochTrip (by decide)).mpr ⟨by decide, by decide⟩,
    fun h => absurd
      ((c6_direction_filter.1 [richmondAntiochTrip, sfoMillbraeTrip] ("Eastbound")
        sfoMillbraeTrip (by decide)).mp h).2 (by decide)⟩

-- Closed forms of the emission path, used for C10.
theorem sortAndFilterTrips_none (l : List TripInfo) :
    sortAndFilterTrips l none = sortByArrival l :=
  rfl

theorem stuPredictions_eq (nowSec : Int) (stopId tripId : String) (trip : Trip)
    (route : Option Route) (vehicle : Option VehicleInfo) (tripDirection : String)
    (stu : StopTimeUpdateMsg) (t : Int)
    (hmatch : stu.stopId = some stopId)
    (htime : jsOrI (evTime stu.arrival) (evTime stu.departure) = some t)
    (ht0 : t ≠ 0) (htf : nowSec < t) :
    stuPredictions nowSec stopId tripId trip route vehicle tripDirection stu =
      [{ tripId := tripId
         routeId := trip.route_id
         routeName := routeNameOf route trip
         routeLongName := routeLongNameOf route
         headsign := trip.trip_headsign
         direction := tripDirection
         scheduledArrival := t - rtDelay stu.arrival stu.departure
         estimatedArrival := t
         minutesUntilArrival := jsRoundDiv (t - nowSec) 60
         delay := rtDelay stu.arrival stu.departure
         routeColor := routeColorOf route
         routeTextColor := routeTextColorOf route
         occupancyStatus := vehicleOccupancyOf vehicle
         vehicleLabel := vehicleLabelOf vehicle }] := by
  have hpres : (stu.arrival.isSome || stu.departure.isSome) = true := by
    rcases ha : stu.arrival with _ | av
    · rcases hd : stu.departure with _ | dv
      · rw [ha, hd] at htime
        simp [jsOrI, evTime] at htime
      · simp [hd]
    · simp [ha]
  unfold stuPredictions
  simp [hmatch, hpres, htime, ht0, htf]

theorem entityPredictions_eq (s : StaticState) (nowSec : Int) (stopId : String)
    (e : FeedEntity) (tu : TripUpdateMsg) (tripId : String) (trip : Trip)
    (stus : List StopTimeUpdateMsg)
    (htu : e.tripUpdate = some tu) (hid : tripIdOf tu = some tripId)
    (htrip : getTrip s tripId = some trip) (hstus : tu.stopTimeUpdate = some stus) :
    entityPredictions s nowSec stopId e =
      pushAll (stuPredictions nowSec stopId tripId trip (getRoute s trip.route_id)
        (jsOrVehicle tu.vehicle e.vehicle)
        (if trip.direction_id = "0" then "outbound" else "inbound")) stus := by
  simp [entityPredictions, htu, hid, htrip, hstus]

theorem stuPredictions_route_none {nowSec : Int} {stopId tripId : String}
    {trip : Trip} {vehicle : Option VehicleInfo} {tripDirection : String}
    {stu : StopTimeUpdateMsg} {p : TripInfo}
    (h : p ∈ stuPredictions nowSec stopId tripId trip none vehicle tripDirection stu) :
    p.routeName = trip.route_id ∧ p.routeLongName = "" ∧
    p.routeColor = none ∧ p.routeTextColor = none := by
  unfold stuPredictions at h
  split at h
  · split at h
    · split at h
      · exact absurd h (List.not_mem_nil p)
      · split at h
        · rcases List.mem_singleton.mp h with rfl
          exact ⟨rfl, rfl, rfl, rfl⟩
        · exact absurd h (List.not_mem_nil p)
    · exact absurd h (List.not_mem_nil p)
  · exact absurd h (List.not_mem_nil p)

/-- C10: a trip-update entity whose trip resolves in the Static Index but
whose route identifier does not is still emitted: the prediction reaches
the response with routeName falling back to the raw route identifier,
routeLongName to the empty string and both colors to null — and every
prediction of such an entity carries those fallbacks. -/
theorem c10_unresolvable_route_fallback
    (s : StaticState) (m : Monitor) (nowMs : Int) (stopId : String)
    (stop : Stop) (feed : FeedMessage) (e : FeedEntity) (tu : TripUpdateMsg)
    (tripId : String) (trip : Trip) (stus : List StopTimeUpdateMsg)
    (stu : StopTimeUpdateMsg) (t : Int) (info : StopInfoOut)
    (hstop : getStop s stopId = some stop)
    (hfeed : m.tripsFeed = some feed)
    (he : e ∈ feed.entity)
    (htu : e.tripUpdate = some tu)
    (hid : tripIdOf tu = some tripId)
    (htrip : getTrip s tripId = some trip)
    (hroute : getRoute s trip.route_id = none)
    (hstus : tu.stopTimeUpdate = some stus)
    (hstu : stu ∈ stus)
    (hmatch : stu.stopId = some stopId)
    (htime : jsOrI (evTime stu.arrival) (evTime stu.departure) = some t)
    (ht0 : t ≠ 0)
    (htf : Int.fdiv nowMs 1000 < t)
    (hok : getStopInfo s m nowMs stopId none = Except.ok info) :
    (∃ p ∈ info.upcomingTrips,
      p.tripId = tripId ∧ p.estimatedArrival = t ∧
      p.routeName = trip.route_id ∧ p.routeLongName = "" ∧
      p.routeColor = none ∧ p.routeTextColor = none) ∧
    (∀ p ∈ entityPredictions s (Int.fdiv nowMs 1000) stopId e,
      p.routeName = trip.route_id ∧ p.routeLongName = "" ∧
      p.routeColor = none ∧ p.routeTextColor = none) := by
  have hep : entityPredictions s (Int.fdiv nowMs 1000) stopId e =
      pushAll (stuPredictions (Int.fdiv nowMs 1000) stopId tripId trip none
        (jsOrVehicle tu.vehicle e.vehicle)
        (if trip.direction_id = "0" then "outbound" else "inbound")) stus := by
    rw [entityPredictions_eq s (Int.fdiv nowMs 1000) stopId e tu tripId trip stus
      htu hid htrip hstus, hroute]
  have hstuEq := stuPredictions_eq (Int.fdiv nowMs 1000) stopId tripId trip none
    (jsOrVehicle tu.vehicle e.vehicle)
    (if trip.direction_id = "0" then "outbound" else "inbound") stu t
    hmatch htime ht0 htf
  rw [getStopInfo_found hstop] at hok
  have hinfo : (buildStopInfo s m nowMs stopId none stop).fst = info :=
    Except.ok.inj hok
  have htrips : info.upcomingTrips =
      sortAndFilterTrips (processTrips s (Int.fdiv nowMs 1000) stopId feed) none := by
    rw [← hinfo, buildStopInfo_upcomingTrips, hfeed]
  constructor
  · refine ⟨{ tripId := tripId
              routeId := trip.route_id
              routeName := routeNameOf none trip
              routeLongName := routeLongNameOf none
              headsign := trip.trip_headsign
              direction := if trip.direction_id = "0" then "outbound" else "inbound"
              scheduledArrival := t - rtDelay stu.arrival stu.departure
              estimatedArrival := t
              minutesUntilArrival := jsRoundDiv (t - Int.fdiv nowMs 1000) 60
              delay := rtDelay stu.arrival stu.departure
              routeColor := routeColorOf none
              routeTextColor := routeTextColorOf none
              occupancyStatus := vehicleOccupancyOf (jsOrVehicle tu.vehicle e.vehicle)
              vehicleLabel := vehicleLabelOf (jsOrVehicle tu.vehicle e.vehicle) },
      ?_, rfl, rfl, rfl, rfl, rfl, rfl⟩
    rw [htrips, sortAndFilterTrips_none]
    refine (mem_sortByArrival _ _).mpr ?_
    refine (mem_pushAll _ _ _).mpr ⟨e, he, ?_⟩
    rw [hep]
    refine (mem_pushAll _ _ _).mpr ⟨stu, hstu, ?_⟩
    rw [hstuEq]
    exact List.mem_singleton_self _
  · intro p hp
    rw [hep] at hp
    rcases (mem_pushAll _ _ _).mp hp with ⟨stu2, _, hp2⟩
    exact stuPredictions_route_none hp2

/-- C10 witness: with route R1 absent from the index, the T1 prediction is
still emitted, with the raw route identifier as routeName, an empty long
name and null colors. -/
theorem c10_unresolvable_route_witness :
    (∃ p ∈ c10Info.upcomingTrips,
      p.tripId = "T1" ∧ p.estimatedArrival = 1700000090 ∧
      p.routeName = "R1" ∧ p.routeLongName = "" ∧
      p.routeColor = none ∧ p.routeTextColor = none) ∧
    (∀ p ∈ entityPredictions c10Static (Int.fdiv 1700000000000 1000) ("M20-2") c4Entity,
      p.routeName = "R1" ∧ p.routeLongName = "" ∧
      p.routeColor = none ∧ p.routeTextColor = none) :=
  c10_unresolvable_route_fallback c10Static scenarioMonitor 1700000000000 ("M20-2")
    montgomeryStop c4Feed c4Entity c4TU ("T1") antiochTrip [c4STU] c4STU
    1700000090 c10Info rfl rfl (List.mem_singleton_self _) rfl rfl rfl rfl rfl
    (List.mem_singleton_self _) rfl rfl (by decide) (by decide) rfl

theorem destinationOf_eq_spec (h : String) : destinationOf h = specDestination h := by
  unfold destinationOf specDestination
  by_cases h0 : h = ""
  · simp [h0]
  · simp only [if_neg h0]
    rcases hp : jsSplit h (" / ") with _ | ⟨x, _ | ⟨y, rest⟩⟩
    · simp
    · simp
    · have hl : (x :: y :: rest).length > 1 := by
        simp [List.length_cons]
      simp [hl]

/-- C9 counterexample: the handler splits on the three-character " / ",
not on "/": for the headsign SFO/Millbrae the emitted destination is the
whole headsign, while the final "/"-delimited segment would be Millbrae. -/
theorem c9_slash_split_counterexample :
    (nextArrivals [sfoMillbraeTrip] 4).map (fun a => a.destination) =
      [("SFO/Millbrae")] ∧
    claimDestinationOf ("SFO/Millbrae") = "Millbrae" ∧
    destinationOf ("SFO/Millbrae") ≠ claimDestinationOf ("SFO/Millbrae") := by
  refine ⟨?_, ?_, ?_⟩ <;> decide

/-- C9 amended: the projection truncates the sorted prediction list to its
first N entries pointwise; each entry's destination comes from splitting
the headsign on the delimiter " / " (space-slash-space) and keeping the
final part when the split yields several (the headsign unchanged
otherwise, "Unknown" when empty); and an entry is labelled arriving
exactly when its minutes-until-arrival is at most 1, scheduled
otherwise. -/
theorem c9_next_projection_amended :
    (∀ (trips : List TripInfo) (limit i : Nat), i < limit →
      (nextArrivals trips limit)[i]? = (trips[i]?).map nextArrivalOf) ∧
    (∀ (trips : List TripInfo) (limit i : Nat), limit ≤ i →
      (nextArrivals trips limit)[i]? = none) ∧
    (∀ (trips : List TripInfo) (limit : Nat),
      (nextArrivals trips limit).length ≤ limit) ∧
    (∀ t : TripInfo, (nextArrivalOf t).destination = specDestination t.headsign) ∧
    (∀ t : TripInfo,
      ((nextArrivalOf t).status = "arriving" ↔ t.minutesUntilArrival ≤ 1) ∧
      ((nextArrivalOf t).status = "scheduled" ↔ ¬ t.minutesUntilArrival ≤ 1) ∧
      (nextArrivalOf t).minutesUntilArrival = t.minutesUntilArrival) := by
  refine ⟨?_, ?_, ?_, ?_, ?_⟩
  · intro trips limit i hi
    simp [nextArrivals, List.getElem?_take, hi]
  · intro trips limit i hi
    apply List.getElem?_eq_none
    simp only [nextArrivals, List.length_map, List.length_take]
    exact le_trans (min_le_left _ _) hi
  · intro trips limit
    simp only [nextArrivals, List.length_map, List.length_take]
    exact min_le_left _ _
  · intro t
    exact destinationOf_eq_spec t.headsign
  · intro t
    refine ⟨?_, ?_, rfl⟩
    · constructor
      · intro hs
        by_contra hmin
        rw [show (nextArrivalOf t).status =
            (if t.minutesUntilArrival ≤ 1 then "arriving" else "scheduled") from rfl,
          if_neg hmin] at hs
        exact absurd hs (by decide)
      · intro hmin
        rw [show (nextArrivalOf t).status =
            (if t.minutesUntilArrival ≤ 1 then "arriving" else "scheduled") from rfl,
          if_pos hmin]
    · constructor
      · intro hs
        by_contra hmin
        rw [show (nextArrivalOf t).status =
            (if t.minutesUntilArrival ≤ 1 then "arriving" else "scheduled") from rfl,
          if_pos hmin] at hs
        exact absurd hs (by decide)
      · intro hmin
        rw [show (nextArrivalOf t).status =
            (if t.minutesUntilArrival ≤ 1 then "arriving" else "scheduled") from rfl,
          if_neg hmin]

/-- C9 witness for the amended theorem, at the Richmond / Antioch
prediction: index 0 of the truncation agrees with the mapped source list;
the emitted destination is Antioch. -/
theorem c9_next_projection_witness :
    (nextArrivals [richmondAntiochTrip] 4)[0]? =
      (([richmondAntiochTrip] : List TripInfo)[0]?).map nextArrivalOf ∧
    (nextArrivalOf richmondAntiochTrip).destination =
      specDestination ("Richmond / Antioch") ∧
    (nextArrivalOf richmondAntiochTrip).destination = "Antioch" :=
  ⟨c9_next_projection_amended.1 [richmondAntiochTrip] 4 0 (by decide),
    c9_next_projection_amended.2.2.2.1 richmondAntiochTrip,
    by decide⟩

end BartProxy
